import Mathlib

/-
A shallow embedding of the WebAuthn device model of `internal/model/webauthn.go`
(package `model`) and of the one-shot `webauthn_devices` schema migration
script, together with theorems about the properties of these operations.

Conventions of the embedding:
* Go byte slices are `List Nat` with each element intended below 256.
* Go strings that are only compared for equality stay Lean `String`; strings
  that the code splits, joins or parses character-wise are `List Char`.
* `sql.NullTime` and `uuid.NullUUID` are `Option _` (the `Valid` flag is the
  `some`/`none` distinction); `time.Time` is an abstract instant `Nat`.
* Go slices that the code may leave `nil` where the nil/empty distinction is
  observable (JSON renders a nil slice as `null`) are `Option (List _)`,
  with `none` standing for the nil slice.
* Fallible operations return `Option _`; `none` is the Go error (or panic).
-/

set_option maxHeartbeats 1000000

namespace WebAuthnModel

/-- Model of Go `strings.Split(s, ",")` over character lists: split at every
comma, so the empty string yields one empty segment, never an empty list. -/
def splitOnComma : List Char → List (List Char)
  | [] => [[]]
  | c :: rest =>
    if c = ',' then [] :: splitOnComma rest
    else
      match splitOnComma rest with
      | [] => [[c]]
      | g :: gs => (c :: g) :: gs

/-- Model of Go `strings.Join(l, ",")` over character lists. -/
def joinComma : List (List Char) → List Char
  | [] => []
  | [g] => g
  | g :: gs => g ++ ',' :: joinComma gs

/-- Go `strings.Join` over a possibly-nil slice: a nil slice joins to `""`. -/
def goJoin (o : Option (List (List Char))) : List Char := joinComma (o.getD [])

/-- The transport decode step of `WebAuthnUser.WebAuthnCredentials`
(webauthn.go lines 93-102): split the stored transport string on commas and
drop the empty segments, in order. -/
def decodeTransports (s : List Char) : List (List Char) :=
  (splitOnComma s).filter (fun g => !g.isEmpty)

/-- The standard base64 alphabet of Go `encoding/base64.StdEncoding`. -/
def b64Alphabet : List Char :=
  "ABCDEFGHIJKLMNOPQRSTUVWXYZabcdefghijklmnopqrstuvwxyz0123456789+/".toList

/-- Character of one six-bit group. -/
def sextetChar (n : Nat) : Char := b64Alphabet.getD n 'A'

/-- Six-bit value of one base64 character, `none` for characters outside the
alphabet (including the padding character). -/
def charSextet (c : Char) : Option Nat := b64Alphabet.findIdx? (fun x => x = c)

/-- Model of Go `base64.StdEncoding.EncodeToString` over byte lists: encode in
three-byte groups, padding the final group with `=`. -/
def b64EncodeCore : List Nat → List Char
  | [] => []
  | [a] => [sextetChar (a / 4), sextetChar (a % 4 * 16), '=', '=']
  | [a, b] => [sextetChar (a / 4), sextetChar (a % 4 * 16 + b / 16), sextetChar (b % 16 * 4), '=']
  | a :: b :: c :: rest =>
    sextetChar (a / 4) :: sextetChar (a % 4 * 16 + b / 16) ::
      sextetChar (b % 16 * 4 + c / 64) :: sextetChar (c % 64) :: b64EncodeCore rest

/-- Model of Go `base64.StdEncoding.DecodeString` over character lists: the
input must be four-character groups, `=` padding only ending the last group. -/
def b64DecodeCore : List Char → Option (List Nat)
  | [] => some []
  | [c1, c2, '=', '='] => do
    let a ← charSextet c1
    let b ← charSextet c2
    some [a * 4 + b / 16]
  | [c1, c2, c3, '='] => do
    let a ← charSextet c1
    let b ← charSextet c2
    let g ← charSextet c3
    some [a * 4 + b / 16, b % 16 * 16 + g / 4]
  | c1 :: c2 :: c3 :: c4 :: rest => do
    let a ← charSextet c1
    let b ← charSextet c2
    let g ← charSextet c3
    let e ← charSextet c4
    let r ← b64DecodeCore rest
    some ((a * 4 + b / 16) :: (b % 16 * 16 + g / 4) :: (g % 4 * 64 + e) :: r)
  | _ => none

/-- Lowercase hexadecimal digits. -/
def hexDigits : List Char := "0123456789abcdef".toList

/-- Uppercase hexadecimal digits. -/
def hexDigitsUpper : List Char := "0123456789ABCDEF".toList

/-- Character of one four-bit value, lowercase. -/
def hexDigit (n : Nat) : Char := hexDigits.getD n '0'

/-- Two lowercase hex characters of one byte. -/
def hexByte (b : Nat) : List Char := [hexDigit (b / 16), hexDigit (b % 16)]

/-- Model of one half of google/uuid `xtob`: the value of a hex digit,
accepting both cases, `none` for a non-hex character. -/
def hexVal (c : Char) : Option Nat :=
  match hexDigits.findIdx? (fun x => x = c) with
  | some n => some n
  | none => hexDigitsUpper.findIdx? (fun x => x = c)

/-- Byte value of two hex characters. -/
def hexPairVal (c1 c2 : Char) : Option Nat := do
  let h ← hexVal c1
  let l ← hexVal c2
  some (h * 16 + l)

/-- Parse an even-length run of hex characters into bytes. -/
def parseHexBytes : List Char → Option (List Nat)
  | [] => some []
  | c1 :: c2 :: rest => do
    let b ← hexPairVal c1 c2
    let r ← parseHexBytes rest
    some (b :: r)
  | _ => none

/-- Model of Go `hex.EncodeToString` over byte lists (lowercase). -/
def hexEncode (l : List Nat) : List Char := (l.map hexByte).flatten

/-- Model of google/uuid `Parse` (external library), restricted to the two
input shapes this code can produce or store: the canonical 36-character dashed
form and the 32-character plain hex form. (The urn- and brace-wrapped forms
the library also accepts never occur here and are not modelled.) A UUID is its
list of 16 bytes. -/
def uuidParse (s : List Char) : Option (List Nat) :=
  match s with
  | a1 :: a2 :: a3 :: a4 :: a5 :: a6 :: a7 :: a8 :: '-' :: b1 :: b2 :: b3 :: b4 :: '-' ::
      c1 :: c2 :: c3 :: c4 :: '-' :: d1 :: d2 :: d3 :: d4 :: '-' ::
      e1 :: e2 :: e3 :: e4 :: e5 :: e6 :: e7 :: e8 :: e9 :: e10 :: e11 :: e12 :: [] =>
    parseHexBytes [a1, a2, a3, a4, a5, a6, a7, a8, b1, b2, b3, b4,
      c1, c2, c3, c4, d1, d2, d3, d4, e1, e2, e3, e4, e5, e6, e7, e8, e9, e10, e11, e12]
  | _ => if s.length = 32 then parseHexBytes s else none

/-- Model of google/uuid `UUID.String` (external library): the canonical
lowercase dashed form of the 16 bytes. -/
def uuidString (u : List Nat) : List Char :=
  match u with
  | [b0, b1, b2, b3, b4, b5, b6, b7, b8, b9, b10, b11, b12, b13, b14, b15] =>
    hexByte b0 ++ hexByte b1 ++ hexByte b2 ++ hexByte b3 ++ '-' ::
      (hexByte b4 ++ hexByte b5 ++ '-' ::
        (hexByte b6 ++ hexByte b7 ++ '-' ::
          (hexByte b8 ++ hexByte b9 ++ '-' ::
            (hexByte b10 ++ hexByte b11 ++ hexByte b12 ++ hexByte b13 ++
              hexByte b14 ++ hexByte b15))))
  | _ => []

/-- Model of google/uuid `UUID.ID` (external library): the big-endian 32-bit
integer formed from the first four bytes only. -/
def uuidID (u : List Nat) : Nat :=
  u.getD 0 0 * 16777216 + u.getD 1 0 * 65536 + u.getD 2 0 * 256 + u.getD 3 0

/-- The constant `attestationTypeFIDOU2F` of webauthn.go line 18. -/
def attestationTypeFIDOU2F : String := "fido-u2f"

/-- Model of `webauthn.CredentialFlags` (external ceremony library). -/
structure CredentialFlags where
  UserPresent : Bool
  UserVerified : Bool
  BackupEligible : Bool
  BackupState : Bool
deriving DecidableEq

/-- Model of `webauthn.Authenticator` (external ceremony library). -/
structure Authenticator where
  AAGUID : List Nat
  SignCount : Nat
  CloneWarning : Bool
  Attachment : String
deriving DecidableEq

/-- Model of `webauthn.Credential` (external ceremony library). Transports are
character lists so the repository's transport codec applies to them. -/
structure Credential where
  ID : List Nat
  PublicKey : List Nat
  AttestationType : String
  Transport : List (List Char)
  Flags : CredentialFlags
  Authenticator : Authenticator
deriving DecidableEq

/-- The zero value of `webauthn.Credential`: what Go's
`make([]webauthn.Credential, n)` fills each slot with. -/
def zeroCredential : Credential :=
  { ID := []
    PublicKey := []
    AttestationType := ""
    Transport := []
    Flags := { UserPresent := false, UserVerified := false,
               BackupEligible := false, BackupState := false }
    Authenticator := { AAGUID := [], SignCount := 0, CloneWarning := false, Attachment := "" } }

/-- Model of the fields of `webauthn.Config` that `UpdateSignInInfo` reads. -/
structure WebAuthnConfig where
  RPID : String
  RPOrigins : List String
deriving DecidableEq

/-- Model of `WebAuthnDevice` (webauthn.go lines 158-179). `KID` is the raw
byte content of the `model.Base64` wrapper, whose textual form is standard
base64 (the wrapper type lives outside this file's source; per the spec its
codec is the lossless base64 pair). -/
structure WebAuthnDevice where
  ID : Nat
  CreatedAt : Nat
  LastUsedAt : Option Nat
  RPID : String
  Username : String
  Description : String
  KID : List Nat
  AAGUID : Option (List Nat)
  AttestationType : String
  Attachment : String
  Transport : List Char
  SignCount : Nat
  CloneWarning : Bool
  Discoverable : Bool
  Present : Bool
  Verified : Bool
  BackupEligible : Bool
  BackupState : Bool
  PublicKey : List Nat
deriving DecidableEq

/-- The zero value of `WebAuthnDevice`, the receiver Go YAML decoding starts
from. -/
def zeroWebAuthnDevice : WebAuthnDevice :=
  { ID := 0, CreatedAt := 0, LastUsedAt := none, RPID := "", Username := "",
    Description := "", KID := [], AAGUID := none, AttestationType := "",
    Attachment := "", Transport := [], SignCount := 0, CloneWarning := false,
    Discoverable := false, Present := false, Verified := false,
    BackupEligible := false, BackupState := false, PublicKey := [] }

/-- Model of `WebAuthnDeviceData` (webauthn.go lines 309-330). `Transports`
models the Go `[]string` slice: `none` is the nil slice, which the `json`
encoder renders as `null` (the field has no `omitempty`, so it is emitted
either way). -/
structure WebAuthnDeviceData where
  ID : Nat
  CreatedAt : Nat
  LastUsedAt : Option Nat
  RPID : String
  Username : String
  Description : String
  KID : List Char
  AAGUID : Option (List Char)
  AttestationType : String
  Attachment : String
  Transports : Option (List (List Char))
  SignCount : Nat
  CloneWarning : Bool
  Discoverable : Bool
  Present : Bool
  Verified : Bool
  BackupEligible : Bool
  BackupState : Bool
  PublicKey : List Char
deriving DecidableEq

/-- Model of `WebAuthnUser` (webauthn.go lines 22-30). -/
structure WebAuthnUser where
  ID : Nat
  RPID : String
  Username : String
  UserID : String
  DisplayName : String
  Devices : List WebAuthnDevice
deriving DecidableEq

/-- Model of `WebAuthnUser.HasFIDOU2F` (lines 33-41). -/
def WebAuthnUser.HasFIDOU2F (w : WebAuthnUser) : Bool :=
  w.Devices.any (fun c => c.AttestationType = attestationTypeFIDOU2F)

/-- Model of google/uuid `NullUUID.MarshalBinary` (external library): the 16
bytes when valid, the nil slice when not; it never returns an error. -/
def nullUUIDMarshalBinary (u : Option (List Nat)) : Option (List Nat) :=
  some (u.getD [])

/-- Model of `WebAuthnUser.WebAuthnCredentials` (lines 64-108). The Go slice
is pre-allocated by `make([]webauthn.Credential, len(w.Devices))`; a device
whose AAGUID fails to marshal is skipped by `continue`, which leaves the
zero-valued credential in that device's slot. The external
`NullUUID.MarshalBinary` call is abstracted as the `marshal` parameter so the
error branch of lines 70-73 can be analysed; `nullUUIDMarshalBinary` is the
actual library behaviour. -/
def WebAuthnUser.WebAuthnCredentials
    (marshal : Option (List Nat) → Option (List Nat)) (w : WebAuthnUser) :
    List Credential :=
  w.Devices.map fun device =>
    match marshal device.AAGUID with
    | none => zeroCredential
    | some aaguid =>
      { ID := device.KID
        PublicKey := device.PublicKey
        AttestationType := device.AttestationType
        Flags := { UserPresent := device.Present
                   UserVerified := device.Verified
                   BackupEligible := device.BackupEligible
                   BackupState := device.BackupState }
        Authenticator := { AAGUID := aaguid
                           SignCount := device.SignCount
                           CloneWarning := device.CloneWarning
                           Attachment := device.Attachment }
        Transport := decodeTransports device.Transport }

/-- Model of `NewWebAuthnDeviceFromCredential` (lines 124-156). Go reads the
clock via `time.Now()`; the instant is the `now` parameter here. The AAGUID is
set only when the hex-then-UUID parse of the raw authenticator AAGUID bytes
succeeds and the parsed value's `ID()` (first 32 bits) is non-zero; otherwise
it stays absent and construction still succeeds. -/
def NewWebAuthnDeviceFromCredential (rpid username description : String)
    (now : Nat) (credential : Credential) : WebAuthnDevice :=
  { ID := 0
    CreatedAt := now
    LastUsedAt := none
    RPID := rpid
    Username := username
    Description := description
    KID := credential.ID
    AAGUID :=
      match uuidParse (hexEncode credential.Authenticator.AAGUID) with
      | some aaguid => if uuidID aaguid ≠ 0 then some aaguid else none
      | none => none
    AttestationType := credential.AttestationType
    Attachment := credential.Authenticator.Attachment
    Transport := joinComma credential.Transport
    SignCount := credential.Authenticator.SignCount
    CloneWarning := credential.Authenticator.CloneWarning
    Discoverable := false
    Present := credential.Flags.UserPresent
    Verified := credential.Flags.UserVerified
    BackupEligible := credential.Flags.BackupEligible
    BackupState := credential.Flags.BackupState
    PublicKey := credential.PublicKey }

/-- Model of `WebAuthnDevice.UpdateSignInInfo` (lines 182-197). Go indexes
`config.RPOrigins[0]` without a guard; with an empty origin list that is an
out-of-range panic, modelled as `none`. -/
def WebAuthnDevice.UpdateSignInInfo (d : WebAuthnDevice) (config : WebAuthnConfig)
    (now : Nat) (signCount : Nat) : Option WebAuthnDevice :=
  if d.RPID ≠ "" then
    some { d with LastUsedAt := some now, SignCount := signCount }
  else if d.AttestationType = attestationTypeFIDOU2F then
    match config.RPOrigins with
    | [] => none
    | origin :: _ =>
      some { d with LastUsedAt := some now, SignCount := signCount, RPID := origin }
  else
    some { d with LastUsedAt := some now, SignCount := signCount, RPID := config.RPID }

/-- Model of `WebAuthnDevice.DataValueLastUsedAt` (lines 199-205). -/
def WebAuthnDevice.DataValueLastUsedAt (d : WebAuthnDevice) : Option Nat :=
  d.LastUsedAt

/-- Model of `WebAuthnDevice.DataValueAAGUID` (lines 207-215). -/
def WebAuthnDevice.DataValueAAGUID (d : WebAuthnDevice) : Option (List Char) :=
  d.AAGUID.map uuidString

/-- Model of `WebAuthnDevice.ToData` (lines 217-243). The Go struct literal
assigns every field of `WebAuthnDeviceData` except `Transports` and
`Discoverable`; `Transports` is then assigned only when the transport string
is non-empty (else it stays the nil slice), and `Discoverable` is never
assigned at all, so it keeps the zero value `false`. -/
def WebAuthnDevice.ToData (d : WebAuthnDevice) : WebAuthnDeviceData :=
  { ID := d.ID
    CreatedAt := d.CreatedAt
    LastUsedAt := d.DataValueLastUsedAt
    RPID := d.RPID
    Username := d.Username
    Description := d.Description
    KID := b64EncodeCore d.KID
    AAGUID := d.DataValueAAGUID
    AttestationType := d.AttestationType
    Attachment := d.Attachment
    Transports := if d.Transport = [] then none else some (splitOnComma d.Transport)
    SignCount := d.SignCount
    CloneWarning := d.CloneWarning
    Discoverable := false
    Present := d.Present
    Verified := d.Verified
    BackupEligible := d.BackupEligible
    BackupState := d.BackupState
    PublicKey := b64EncodeCore d.PublicKey }

/-- The AAGUID handling of `WebAuthnDeviceData.ToDevice` (lines 354-364): an
absent string stays absent; a present string must parse as a UUID or the whole
conversion fails; a parsed UUID is kept only when its `ID()` is non-zero. -/
def parseAAGUIDField : Option (List Char) → Option (Option (List Nat))
  | none => some none
  | some s =>
    match uuidParse s with
    | none => none
    | some u => if uuidID u ≠ 0 then some (some u) else some none

/-- Model of `WebAuthnDeviceData.ToDevice` (lines 332-379). -/
def WebAuthnDeviceData.ToDevice (d : WebAuthnDeviceData) : Option WebAuthnDevice :=
  match b64DecodeCore d.PublicKey with
  | none => none
  | some pk =>
    match parseAAGUIDField d.AAGUID with
    | none => none
    | some aaguid =>
      match b64DecodeCore d.KID with
      | none => none
      | some kid =>
        some { ID := 0
               CreatedAt := d.CreatedAt
               LastUsedAt := d.LastUsedAt
               RPID := d.RPID
               Username := d.Username
               Description := d.Description
               KID := kid
               AAGUID := aaguid
               AttestationType := d.AttestationType
               Attachment := d.Attachment
               Transport := goJoin d.Transports
               SignCount := d.SignCount
               CloneWarning := d.CloneWarning
               Discoverable := d.Discoverable
               Present := d.Present
               Verified := d.Verified
               BackupEligible := d.BackupEligible
               BackupState := d.BackupState
               PublicKey := pk }

/-- The AAGUID handling of `WebAuthnDevice.UnmarshalYAML` (lines 267-277):
unlike `ToDevice`, a successfully parsed UUID whose `ID()` is zero, or an
absent string, leaves the receiver's previous AAGUID in place. -/
def parseAAGUIDYAML (prev : Option (List Nat)) :
    Option (List Char) → Option (Option (List Nat))
  | none => some prev
  | some s =>
    match uuidParse s with
    | none => none
    | some u => if uuidID u ≠ 0 then some (some u) else some prev

/-- Model of `WebAuthnDevice.UnmarshalYAML` (lines 256-307), given the already
YAML-decoded `WebAuthnDeviceData` (the `value.Decode` step is the external
YAML library). `d` is the receiver the fields are written into; Go invokes it
on a zero-valued receiver. The receiver's `ID`, and its `LastUsedAt` when the
document omits the timestamp, are left untouched. -/
def WebAuthnDevice.UnmarshalYAMLData (d : WebAuthnDevice) (o : WebAuthnDeviceData) :
    Option WebAuthnDevice :=
  match b64DecodeCore o.PublicKey with
  | none => none
  | some pk =>
    match parseAAGUIDYAML d.AAGUID o.AAGUID with
    | none => none
    | some aaguid =>
      match b64DecodeCore o.KID with
      | none => none
      | some kid =>
        some { d with
               PublicKey := pk
               AAGUID := aaguid
               KID := kid
               CreatedAt := o.CreatedAt
               RPID := o.RPID
               Username := o.Username
               Description := o.Description
               AttestationType := o.AttestationType
               Attachment := o.Attachment
               Transport := goJoin o.Transports
               SignCount := o.SignCount
               CloneWarning := o.CloneWarning
               Discoverable := o.Discoverable
               Present := o.Present
               Verified := o.Verified
               BackupEligible := o.BackupEligible
               BackupState := o.BackupState
               LastUsedAt :=
                 (match o.LastUsedAt with
                  | some t => some t
                  | none => d.LastUsedAt) }

/-- One row of the legacy `webauthn_credentials` table, with exactly the
columns the migration's `INSERT INTO ... SELECT` copies, plus the `legacy`
flag its `WHERE` clause filters on. -/
structure LegacyWebAuthnCredentialRow where
  created_at : Nat
  last_used_at : Option Nat
  rpid : Option String
  username : String
  description : String
  kid : String
  public_key : List Nat
  attestation_type : Option String
  transport : Option String
  aaguid : String
  sign_count : Nat
  clone_warning : Bool
  legacy : Bool
deriving DecidableEq

/-- One row of the consolidated `webauthn_devices` table (the surrogate
`id SERIAL` is storage-assigned and not part of the copied columns). -/
structure WebAuthnDeviceRow where
  created_at : Nat
  last_used_at : Option Nat
  rpid : Option String
  username : String
  description : String
  kid : String
  public_key : List Nat
  attestation_type : Option String
  transport : Option String
  aaguid : String
  sign_count : Nat
  clone_warning : Bool
deriving DecidableEq

/-- The column projection of the migration's `INSERT INTO ... SELECT`: every
selected column is carried through unchanged. -/
def migrateRow (r : LegacyWebAuthnCredentialRow) : WebAuthnDeviceRow :=
  { created_at := r.created_at
    last_used_at := r.last_used_at
    rpid := r.rpid
    username := r.username
    description := r.description
    kid := r.kid
    public_key := r.public_key
    attestation_type := r.attestation_type
    transport := r.transport
    aaguid := r.aaguid
    sign_count := r.sign_count
    clone_warning := r.clone_warning }

/-- The tables the migration script touches; `none` means the table does not
exist. The legacy `webauthn_users` table's contents never matter to the
script, so only its existence is tracked. -/
structure MigrationState where
  webauthn_devices : Option (List WebAuthnDeviceRow)
  webauthn_credentials : Option (List LegacyWebAuthnCredentialRow)
  webauthn_users : Option Unit
deriving DecidableEq

/-- Model of the one-shot `webauthn_devices` migration script
(src/unnamed/part_000): create the device table with its two unique indexes
(creating the indexes errors when the table with them already exists, e.g.
from a previous run), copy over every legacy credentials row flagged
`legacy = TRUE` in order (the insert errors when the copied rows violate the
`kid` or `(username, description)` unique indexes, or when the legacy table
does not exist), then drop both legacy tables. -/
def runMigration (s : MigrationState) : Option MigrationState :=
  match s.webauthn_devices, s.webauthn_credentials with
  | some _, _ => none
  | none, none => none
  | none, some creds =>
    let rows := (creds.filter fun r => r.legacy).map migrateRow
    if (rows.map fun r => r.kid).Nodup ∧
        (rows.map fun r => (r.username, r.description)).Nodup then
      some { webauthn_devices := some rows
             webauthn_credentials := none
             webauthn_users := none }
    else none

/-- A concrete stored device used as the base of the examples below. -/
def sampleDevice : WebAuthnDevice :=
  { ID := 1, CreatedAt := 0, LastUsedAt := none, RPID := "example.com",
    Username := "john", Description := "Primary", KID := [1, 2, 3],
    AAGUID := none, AttestationType := "packed", Attachment := "",
    Transport := [], SignCount := 0, CloneWarning := false, Discoverable := false,
    Present := true, Verified := true, BackupEligible := false, BackupState := false,
    PublicKey := [4, 5, 6] }

/-- The device `sampleDevice`-shaped records come back as after a document
round trip: the surrogate id is reset by the import. -/
def devRoundtrip : WebAuthnDevice := { sampleDevice with ID := 0 }

/-- An AAGUID whose marshalling the example marshal function below fails on. -/
def c1BadAAGUID : List Nat := [0, 0, 0, 1, 0, 0, 0, 0, 0, 0, 0, 0, 0, 0, 0, 2]

/-- A device carrying `c1BadAAGUID`. -/
def c1DeviceBad : WebAuthnDevice :=
  { sampleDevice with Description := "bad", KID := [9], AAGUID := some c1BadAAGUID }

/-- A device whose AAGUID marshals fine. -/
def c1DeviceGood : WebAuthnDevice :=
  { sampleDevice with Description := "good", KID := [7], Transport := "usb,nfc".toList }

/-- A marshal step failing exactly on `c1BadAAGUID`, behaving as the library
otherwise. -/
def c1Marshal (u : Option (List Nat)) : Option (List Nat) :=
  if u = some c1BadAAGUID then none else nullUUIDMarshalBinary u

/-- A user with two devices of which exactly the first has the AAGUID the
marshal step fails on. -/
def c1User : WebAuthnUser :=
  { ID := 1, RPID := "example.com", Username := "john", UserID := "u1",
    DisplayName := "John", Devices := [c1DeviceBad, c1DeviceGood] }

/-- The credential the adapter builds for `c1DeviceGood`. -/
def c1GoodCredential : Credential :=
  { ID := [7]
    PublicKey := [4, 5, 6]
    AttestationType := "packed"
    Transport := ["usb".toList, "nfc".toList]
    Flags := { UserPresent := true, UserVerified := true,
               BackupEligible := false, BackupState := false }
    Authenticator := { AAGUID := [], SignCount := 0, CloneWarning := false, Attachment := "" } }

/-- A stored device whose discoverable flag is set. -/
def c2Device : WebAuthnDevice := { sampleDevice with Discoverable := true }

/-- A device with a non-empty RPID and the clone warning set. -/
def c3Device : WebAuthnDevice := { sampleDevice with CloneWarning := true }

/-- A relying-party configuration with one origin. -/
def c3Config : WebAuthnConfig :=
  { RPID := "example.com", RPOrigins := ["https://example.com"] }

/-- What `c3Device` becomes after a sign-in at instant 5 with counter 7. -/
def c3DeviceAfter : WebAuthnDevice :=
  { c3Device with LastUsedAt := some 5, SignCount := 7 }

/-- A legacy-U2F device registered before RPID tracking, so with empty RPID. -/
def c4Device : WebAuthnDevice :=
  { sampleDevice with RPID := "", AttestationType := "fido-u2f" }

/-- What `c4Device` becomes after a sign-in at instant 3 with counter 9 under
`c3Config`: the RPID is back-filled from the first configured origin. -/
def c4DeviceAfter : WebAuthnDevice :=
  { c4Device with LastUsedAt := some 3, SignCount := 9, RPID := "https://example.com" }

/-- A registration credential reporting the all-zero AAGUID. -/
def c7CredZero : Credential :=
  { ID := [1, 2, 3]
    PublicKey := [4, 5, 6]
    AttestationType := "packed"
    Transport := []
    Flags := { UserPresent := true, UserVerified := true,
               BackupEligible := false, BackupState := false }
    Authenticator := { AAGUID := List.replicate 16 0, SignCount := 0,
                       CloneWarning := false, Attachment := "" } }

/-- A registration credential whose raw AAGUID bytes (wrong length) fail the
hex-then-UUID parse. -/
def c7CredBad : Credential :=
  { c7CredZero with Authenticator := { AAGUID := [1, 2, 3], SignCount := 0,
                                       CloneWarning := false, Attachment := "" } }

/-- A portable document carrying the all-zero AAGUID string. -/
def c7Data : WebAuthnDeviceData :=
  { sampleDevice.ToData with AAGUID := some (uuidString (List.replicate 16 0)) }

/-- A parsed UUID whose first 32 bits are zero but whose last byte is not. -/
def c10UUID : List Nat := [0, 0, 0, 0, 0, 0, 0, 0, 0, 0, 0, 0, 0, 0, 0, 1]

/-- A registration credential reporting `c10UUID` as its AAGUID bytes. -/
def c10Cred : Credential :=
  { c7CredZero with Authenticator := { AAGUID := c10UUID, SignCount := 0,
                                       CloneWarning := false, Attachment := "" } }

/-- A portable document carrying the `c10UUID` string. -/
def c10Data : WebAuthnDeviceData :=
  { sampleDevice.ToData with AAGUID := some (uuidString c10UUID) }

/-- A legacy credentials row flagged legacy. -/
def c9r1 : LegacyWebAuthnCredentialRow :=
  { created_at := 1, last_used_at := none, rpid := some "example.com",
    username := "john", description := "Primary", kid := "k1",
    public_key := [1], attestation_type := some "fido-u2f", transport := some "",
    aaguid := "00000000-0000-0000-0000-000000000000", sign_count := 3,
    clone_warning := false, legacy := true }

/-- A legacy credentials row not flagged legacy. -/
def c9r2 : LegacyWebAuthnCredentialRow :=
  { c9r1 with description := "Middle", kid := "k2", legacy := false }

/-- Another legacy credentials row flagged legacy. -/
def c9r3 : LegacyWebAuthnCredentialRow :=
  { c9r1 with description := "Backup", kid := "k3", sign_count := 9 }

/-- The legacy-dual-table state the migration example starts from. -/
def c9State : MigrationState :=
  { webauthn_devices := none
    webauthn_credentials := some [c9r1, c9r2, c9r3]
    webauthn_users := some () }

theorem splitOnComma_ne_nil (s : List Char) : splitOnComma s ≠ [] := by
  cases s with
  | nil => simp [splitOnComma]
  | cons c rest =>
    simp only [splitOnComma]
    split
    · simp
    · split <;> simp

theorem splitOnComma_append (g rest x : List Char) (xs : List (List Char))
    (hr : splitOnComma rest = x :: xs) :
    ',' ∉ g → splitOnComma (g ++ rest) = (g ++ x) :: xs := by
  induction g with
  | nil =>
    intro _
    simpa using hr
  | cons c g ih =>
    intro hg
    have hc : ¬ c = ',' := by
      intro h
      exact hg (by simp [h])
    have ih2 := ih (fun h => hg (List.mem_cons_of_mem _ h))
    simp only [List.cons_append, splitOnComma, if_neg hc]
    simp only [List.append_eq]
    rw [ih2]

theorem joinComma_cons_cons (c : Char) (g : List Char) (gs : List (List Char)) :
    joinComma ((c :: g) :: gs) = c :: joinComma (g :: gs) := by
  cases gs <;> simp [joinComma]

theorem joinComma_splitOnComma (s : List Char) : joinComma (splitOnComma s) = s := by
  induction s with
  | nil => rfl
  | cons c rest ih =>
    by_cases hc : c = ','
    · subst hc
      simp only [splitOnComma, if_pos rfl]
      rcases hr : splitOnComma rest with _ | ⟨g, gs⟩
      · exact absurd hr (splitOnComma_ne_nil rest)
      · rw [hr] at ih
        calc joinComma ([] :: g :: gs) = ',' :: joinComma (g :: gs) := by simp [joinComma]
          _ = ',' :: rest := by rw [ih]
    · simp only [splitOnComma, if_neg hc]
      rcases hr : splitOnComma rest with _ | ⟨g, gs⟩
      · exact absurd hr (splitOnComma_ne_nil rest)
      · rw [hr] at ih
        simp only [hr]
        calc joinComma ((c :: g) :: gs) = c :: joinComma (g :: gs) := joinComma_cons_cons c g gs
          _ = c :: rest := by rw [ih]

theorem decode_encode_aux (T : List (List Char)) :
    (∀ g ∈ T, g ≠ [] ∧ ',' ∉ g) → decodeTransports (joinComma T) = T := by
  induction T with
  | nil =>
    intro _
    rfl
  | cons g T ih =>
    intro h
    have hg := h g (by simp)
    have hne : g.isEmpty = false := by
      cases g
      · exact absurd rfl hg.1
      · rfl
    cases T with
    | nil =>
      have hs := splitOnComma_append g [] [] [] rfl hg.2
      simp only [List.append_nil] at hs
      show decodeTransports (joinComma [g]) = [g]
      simp only [joinComma, decodeTransports, hs, List.filter, hne]
      rfl
    | cons g2 t =>
      have ih2 := ih (fun x hx => h x (List.mem_cons_of_mem _ hx))
      have hsplit := splitOnComma_append g (',' :: joinComma (g2 :: t)) []
        (splitOnComma (joinComma (g2 :: t))) (by simp [splitOnComma]) hg.2
      simp only [List.append_nil] at hsplit
      show decodeTransports (joinComma (g :: g2 :: t)) = g :: g2 :: t
      have hj : joinComma (g :: g2 :: t) = g ++ ',' :: joinComma (g2 :: t) := rfl
      simp only [decodeTransports] at ih2 ⊢
      simp only [hj, hsplit, List.filter, hne]
      simp only [Bool.not_false, ih2]

theorem parseAAGUIDField_none_iff (a : Option (List Char)) :
    parseAAGUIDField a = none ↔ ∃ s, a = some s ∧ uuidParse s = none := by
  cases a with
  | none => simp [parseAAGUIDField]
  | some s =>
    cases hu : uuidParse s with
    | none => simp [parseAAGUIDField, hu]
    | some u =>
      simp only [parseAAGUIDField, hu]
      constructor
      · intro h
        split_ifs at h
      · rintro ⟨s', hs', hps'⟩
        rw [Option.some.injEq] at hs'
        subst hs'
        rw [hu] at hps'
        exact Option.noConfusion hps'

/-- Claim C1: the spec says a device whose AAGUID fails to marshal is excluded
from the credential list, so a user with two devices of which exactly one
fails yields a length-1 list of only the valid device. The code instead
pre-allocates the slice at the device count and `continue` leaves the
zero-valued credential in the failed device's slot: at a two-device user whose
first device's AAGUID fails to marshal, the list has length 2, carries
`zeroCredential` first and the valid device's credential second, and does not
have length 1. -/
theorem c1_failed_marshal_keeps_zero_slot :
    (WebAuthnUser.WebAuthnCredentials c1Marshal c1User).length = 2 ∧
    WebAuthnUser.WebAuthnCredentials c1Marshal c1User = [zeroCredential, c1GoodCredential] ∧
    ¬ (WebAuthnUser.WebAuthnCredentials c1Marshal c1User).length = 1 := by
  refine ⟨rfl, by decide, by decide⟩

/-- Claim C2: the spec says `ToDevice (ToData d)` reproduces `d` in every
field except the surrogate id, in particular the discoverable flag. The code's
`ToData` never assigns the document's `Discoverable` field, so the round trip
of a device whose discoverable flag is true comes back with it false: the
device differs from the result in `Discoverable`, not only in `ID`. -/
theorem c2_roundtrip_drops_discoverable :
    c2Device.Discoverable = true ∧
    c2Device.ToData.ToDevice = some devRoundtrip ∧
    devRoundtrip.Discoverable = false ∧
    devRoundtrip.ID ≠ c2Device.ID ∧
    devRoundtrip ≠ { c2Device with ID := devRoundtrip.ID } := by
  refine ⟨rfl, by decide, rfl, by decide, by decide⟩

/-- Claim C5 counterexample: the claim says exporting a device whose transport
string is empty yields an empty transports list, never an omitted or null
field; the code leaves the Go nil slice (JSON `null`) in that case, not an
empty list. -/
theorem c5_empty_transport_is_nil_slice :
    sampleDevice.Transport = [] ∧
    sampleDevice.ToData.Transports = none ∧
    ¬ sampleDevice.ToData.Transports = some [] := by
  refine ⟨rfl, rfl, by decide⟩

/-- Claim C5 as amended: `ToData` leaves the transports field as the nil slice
(serialized as JSON `null`) exactly when the transport string is empty;
whenever the field is a list it is the non-empty comma-split of the transport
string and joins back to it. -/
theorem c5_transports_amended (d : WebAuthnDevice) :
    (d.ToData.Transports = none ↔ d.Transport = []) ∧
    ∀ g, d.ToData.Transports = some g → g ≠ [] ∧ joinComma g = d.Transport := by
  constructor
  · constructor
    · intro h
      by_contra hne
      simp only [WebAuthnDevice.ToData, if_neg hne] at h
      exact Option.noConfusion h
    · intro h
      simp only [WebAuthnDevice.ToData, if_pos h]
  · intro g hgd
    by_cases hne : d.Transport = []
    · simp only [WebAuthnDevice.ToData, if_pos hne] at hgd
      exact Option.noConfusion hgd
    · simp only [WebAuthnDevice.ToData, if_neg hne, Option.some.injEq] at hgd
      subst hgd
      exact ⟨splitOnComma_ne_nil d.Transport, joinComma_splitOnComma d.Transport⟩

/-- Claim C5 amended, witnessed at a device with two transports. -/
theorem c5_transports_amended_witness :
    c1DeviceGood.ToData.Transports = some ["usb".toList, "nfc".toList] ∧
    (["usb".toList, "nfc".toList] ≠ ([] : List (List Char)) ∧
      joinComma ["usb".toList, "nfc".toList] = c1DeviceGood.Transport) :=
  ⟨by decide, (c5_transports_amended c1DeviceGood).2 _ (by decide)⟩

/-- Claim C9: after the one-shot schema migration on a fresh target, the
consolidated device table holds exactly the legacy-flagged rows of the legacy
credentials table in order, each column carried through unchanged, and both
legacy tables (credentials and users) no longer exist. -/
theorem c9_migration_consolidates (s : MigrationState)
    (creds : List LegacyWebAuthnCredentialRow)
    (hdev : s.webauthn_devices = none)
    (hcred : s.webauthn_credentials = some creds)
    (hkid : (((creds.filter fun r => r.legacy).map migrateRow).map fun r => r.kid).Nodup)
    (hkey : (((creds.filter fun r => r.legacy).map migrateRow).map
      fun r => (r.username, r.description)).Nodup) :
    runMigration s = some { webauthn_devices := some ((creds.filter fun r => r.legacy).map migrateRow)
                            webauthn_credentials := none
                            webauthn_users := none } ∧
    ∀ r : LegacyWebAuthnCredentialRow,
      (migrateRow r).created_at = r.created_at ∧
      (migrateRow r).last_used_at = r.last_used_at ∧
      (migrateRow r).rpid = r.rpid ∧
      (migrateRow r).username = r.username ∧
      (migrateRow r).description = r.description ∧
      (migrateRow r).kid = r.kid ∧
      (migrateRow r).public_key = r.public_key ∧
      (migrateRow r).attestation_type = r.attestation_type ∧
      (migrateRow r).transport = r.transport ∧
      (migrateRow r).aaguid = r.aaguid ∧
      (migrateRow r).sign_count = r.sign_count ∧
      (migrateRow r).clone_warning = r.clone_warning := by
  constructor
  · simp only [runMigration, hdev, hcred]
    rw [if_pos ⟨hkid, hkey⟩]
  · intro r
    exact ⟨rfl, rfl, rfl, rfl, rfl, rfl, rfl, rfl, rfl, rfl, rfl, rfl⟩

/-- Claim C9, witnessed at a three-row legacy table of which two rows are
flagged legacy: the consolidated table holds exactly those two rows. -/
theorem c9_migration_consolidates_witness :
    c9State.webauthn_devices = none ∧
    c9State.webauthn_credentials = some [c9r1, c9r2, c9r3] ∧
    (([c9r1, c9r2, c9r3].filter fun r => r.legacy).map migrateRow) =
      [migrateRow c9r1, migrateRow c9r3] ∧
    runMigration c9State =
      some { webauthn_devices := some (([c9r1, c9r2, c9r3].filter fun r => r.legacy).map migrateRow)
             webauthn_credentials := none
             webauthn_users := none } :=
  ⟨rfl, rfl, by decide,
    (c9_migration_consolidates c9State [c9r1, c9r2, c9r3] rfl rfl (by decide) (by decide)).1⟩

/-- Claim C3: `UpdateSignInInfo` never changes the clone-warning flag from
true to false, never changes an already-non-empty RPID, and leaves every field
other than last-used, sign-count and RPID unchanged. -/
theorem c3_update_frame (d : WebAuthnDevice) (config : WebAuthnConfig)
    (now sc : Nat) (d' : WebAuthnDevice)
    (h : d.UpdateSignInInfo config now sc = some d') :
    (d.CloneWarning = true → d'.CloneWarning = true) ∧
    (d.RPID ≠ "" → d'.RPID = d.RPID) ∧
    d'.ID = d.ID ∧ d'.CreatedAt = d.CreatedAt ∧ d'.Username = d.Username ∧
    d'.Description = d.Description ∧ d'.KID = d.KID ∧ d'.AAGUID = d.AAGUID ∧
    d'.AttestationType = d.AttestationType ∧ d'.Attachment = d.Attachment ∧
    d'.Transport = d.Transport ∧ d'.CloneWarning = d.CloneWarning ∧
    d'.Discoverable = d.Discoverable ∧ d'.Present = d.Present ∧
    d'.Verified = d.Verified ∧ d'.BackupEligible = d.BackupEligible ∧
    d'.BackupState = d.BackupState ∧ d'.PublicKey = d.PublicKey := by
  unfold WebAuthnDevice.UpdateSignInInfo at h
  by_cases h1 : d.RPID ≠ ""
  · rw [if_pos h1, Option.some.injEq] at h
    subst h
    refine ⟨fun hc => hc, fun _ => rfl, ?_⟩
    repeat' constructor
  · rw [if_neg h1] at h
    by_cases h2 : d.AttestationType = attestationTypeFIDOU2F
    · rw [if_pos h2] at h
      rcases ho : config.RPOrigins with _ | ⟨o, rest⟩ <;> rw [ho] at h
      · exact Option.noConfusion h
      · rw [Option.some.injEq] at h
        subst h
        refine ⟨fun hc => hc, fun hne => absurd hne h1, ?_⟩
        repeat' constructor
    · rw [if_neg h2, Option.some.injEq] at h
      subst h
      refine ⟨fun hc => hc, fun hne => absurd hne h1, ?_⟩
      repeat' constructor

/-- Claim C3, witnessed at a device with non-empty RPID and clone warning
set: every frame condition holds of the concrete call. -/
theorem c3_update_frame_witness :
    c3Device.UpdateSignInInfo c3Config 5 7 = some c3DeviceAfter ∧
    ((c3Device.CloneWarning = true → c3DeviceAfter.CloneWarning = true) ∧
     (c3Device.RPID ≠ "" → c3DeviceAfter.RPID = c3Device.RPID) ∧
     c3DeviceAfter.ID = c3Device.ID ∧ c3DeviceAfter.CreatedAt = c3Device.CreatedAt ∧
     c3DeviceAfter.Username = c3Device.Username ∧
     c3DeviceAfter.Description = c3Device.Description ∧
     c3DeviceAfter.KID = c3Device.KID ∧ c3DeviceAfter.AAGUID = c3Device.AAGUID ∧
     c3DeviceAfter.AttestationType = c3Device.AttestationType ∧
     c3DeviceAfter.Attachment = c3Device.Attachment ∧
     c3DeviceAfter.Transport = c3Device.Transport ∧
     c3DeviceAfter.CloneWarning = c3Device.CloneWarning ∧
     c3DeviceAfter.Discoverable = c3Device.Discoverable ∧
     c3DeviceAfter.Present = c3Device.Present ∧
     c3DeviceAfter.Verified = c3Device.Verified ∧
     c3DeviceAfter.BackupEligible = c3Device.BackupEligible ∧
     c3DeviceAfter.BackupState = c3Device.BackupState ∧
     c3DeviceAfter.PublicKey = c3Device.PublicKey) :=
  ⟨by decide, c3_update_frame c3Device c3Config 5 7 c3DeviceAfter (by decide)⟩

/-- Claim C4: under a config whose origin list is non-empty, a completed
`UpdateSignInInfo` call sets last-used to the given instant and sign-count to
the given counter unconditionally, and when the RPID was empty before the
call it becomes the first configured origin for attestation type "fido-u2f"
and the configured default RPID otherwise. -/
theorem c4_update_sets (d : WebAuthnDevice) (config : WebAuthnConfig)
    (now sc : Nat) (origin : String) (rest : List String) (d' : WebAuthnDevice)
    (horig : config.RPOrigins = origin :: rest)
    (h : d.UpdateSignInInfo config now sc = some d') :
    d'.LastUsedAt = some now ∧ d'.SignCount = sc ∧
    (d.RPID = "" →
      (d.AttestationType = attestationTypeFIDOU2F → d'.RPID = origin) ∧
      (d.AttestationType ≠ attestationTypeFIDOU2F → d'.RPID = config.RPID)) := by
  unfold WebAuthnDevice.UpdateSignInInfo at h
  by_cases h1 : d.RPID ≠ ""
  · rw [if_pos h1, Option.some.injEq] at h
    subst h
    exact ⟨rfl, rfl, fun he => absurd he h1⟩
  · rw [if_neg h1] at h
    by_cases h2 : d.AttestationType = attestationTypeFIDOU2F
    · rw [if_pos h2, horig, Option.some.injEq] at h
      subst h
      exact ⟨rfl, rfl, fun _ => ⟨fun _ => rfl, fun hne => absurd h2 hne⟩⟩
    · rw [if_neg h2, Option.some.injEq] at h
      subst h
      exact ⟨rfl, rfl, fun _ => ⟨fun ha => absurd ha h2, fun _ => rfl⟩⟩

/-- Claim C4, witnessed at a legacy-U2F device with empty RPID under a config
with origin list `["https://example.com"]`: last-used and sign-count are set
and the RPID is back-filled with that origin. -/
theorem c4_update_sets_witness :
    c3Config.RPOrigins = "https://example.com" :: [] ∧
    c4Device.UpdateSignInInfo c3Config 3 9 = some c4DeviceAfter ∧
    (c4DeviceAfter.LastUsedAt = some 3 ∧ c4DeviceAfter.SignCount = 9 ∧
     (c4Device.RPID = "" →
       (c4Device.AttestationType = attestationTypeFIDOU2F →
         c4DeviceAfter.RPID = "https://example.com") ∧
       (c4Device.AttestationType ≠ attestationTypeFIDOU2F →
         c4DeviceAfter.RPID = c3Config.RPID))) :=
  ⟨by decide, by decide,
    c4_update_sets c4Device c3Config 3 9 "https://example.com" [] c4DeviceAfter
      (by decide) (by decide)⟩

/-- Claim C6: importing a portable document fails exactly when the public key
is not valid base64, or the KID is not valid base64, or an AAGUID string is
present and does not parse as a UUID; in every other case the import
succeeds. -/
theorem c6_import_error_iff (d : WebAuthnDeviceData) :
    d.ToDevice = none ↔
      b64DecodeCore d.PublicKey = none ∨ b64DecodeCore d.KID = none ∨
        ∃ s, d.AAGUID = some s ∧ uuidParse s = none := by
  unfold WebAuthnDeviceData.ToDevice
  rcases hpk : b64DecodeCore d.PublicKey with _ | pk
  · simp
  · rcases ha : parseAAGUIDField d.AAGUID with _ | ag
    · simp [(parseAAGUIDField_none_iff d.AAGUID).mp ha]
    · rcases hk : b64DecodeCore d.KID with _ | kid
      · simp
      · have h3 : ¬ ∃ s, d.AAGUID = some s ∧ uuidParse s = none := by
          intro hex
          rw [← parseAAGUIDField_none_iff, ha] at hex
          exact Option.noConfusion hex
        simp [h3]

/-- Claim C7: parsing the all-zero UUID yields an absent AAGUID both when
constructing a device from raw authenticator bytes and when importing the
zero UUID document string; and an AAGUID parse failure during construction
leaves the AAGUID absent while construction still succeeds, carrying the
credential's other data. -/
theorem c7_zero_uuid_absent (rpid username description : String) (now : Nat)
    (c : Credential) (d : WebAuthnDeviceData) (dev : WebAuthnDevice) :
    (c.Authenticator.AAGUID = List.replicate 16 0 →
      (NewWebAuthnDeviceFromCredential rpid username description now c).AAGUID = none) ∧
    (uuidParse (hexEncode c.Authenticator.AAGUID) = none →
      (NewWebAuthnDeviceFromCredential rpid username description now c).AAGUID = none ∧
      (NewWebAuthnDeviceFromCredential rpid username description now c).KID = c.ID ∧
      (NewWebAuthnDeviceFromCredential rpid username description now c).PublicKey = c.PublicKey) ∧
    (d.AAGUID = some (uuidString (List.replicate 16 0)) →
      d.ToDevice = some dev → dev.AAGUID = none) := by
  refine ⟨fun h => ?_, fun h => ?_, fun ha hdev => ?_⟩
  · simp only [NewWebAuthnDeviceFromCredential, h]
    decide
  · simp [NewWebAuthnDeviceFromCredential, h]
  · have hpa : parseAAGUIDField d.AAGUID = some none := by
      rw [ha]
      decide
    unfold WebAuthnDeviceData.ToDevice at hdev
    rcases hpk : b64DecodeCore d.PublicKey with _ | pk
    · rw [hpk] at hdev
      exact Option.noConfusion hdev
    · rw [hpk, hpa] at hdev
      rcases hk : b64DecodeCore d.KID with _ | kid
      · rw [hk] at hdev
        exact Option.noConfusion hdev
      · rw [hk] at hdev
        injection hdev with h2
        subst h2
        rfl

/-- Claim C7, witnessed at a zero-AAGUID registration credential, a
wrong-length AAGUID registration credential, and a document carrying the
all-zero UUID string. -/
theorem c7_zero_uuid_absent_witness :
    c7CredZero.Authenticator.AAGUID = List.replicate 16 0 ∧
    uuidParse (hexEncode c7CredBad.Authenticator.AAGUID) = none ∧
    c7Data.AAGUID = some (uuidString (List.replicate 16 0)) ∧
    c7Data.ToDevice = some devRoundtrip ∧
    (NewWebAuthnDeviceFromCredential "rp" "u" "d" 0 c7CredZero).AAGUID = none ∧
    ((NewWebAuthnDeviceFromCredential "rp" "u" "d" 0 c7CredBad).AAGUID = none ∧
     (NewWebAuthnDeviceFromCredential "rp" "u" "d" 0 c7CredBad).KID = c7CredBad.ID ∧
     (NewWebAuthnDeviceFromCredential "rp" "u" "d" 0 c7CredBad).PublicKey = c7CredBad.PublicKey) ∧
    devRoundtrip.AAGUID = none := by
  refine ⟨rfl, by decide, rfl, by decide, ?_, ?_, ?_⟩
  · exact (c7_zero_uuid_absent "rp" "u" "d" 0 c7CredZero c7Data devRoundtrip).1 rfl
  · exact (c7_zero_uuid_absent "rp" "u" "d" 0 c7CredBad c7Data devRoundtrip).2.1 (by decide)
  · exact (c7_zero_uuid_absent "rp" "u" "d" 0 c7CredZero c7Data devRoundtrip).2.2 rfl (by decide)

/-- Claim C10: in each AAGUID-setting operation (construction from a
registration credential, YAML unmarshalling on the zero receiver, and document
import), a successfully parsed UUID whose first 32 bits are zero is normalized
to an absent AAGUID whatever its remaining 96 bits are, because the zero check
`ID()` reads only the first four bytes. -/
theorem c10_zero_check_reads_first_32_bits (rpid username description : String)
    (now : Nat) (c : Credential) (d : WebAuthnDeviceData) (s : List Char)
    (u : List Nat) (dev devy : WebAuthnDevice) :
    (uuidParse (hexEncode c.Authenticator.AAGUID) = some u → uuidID u = 0 →
      (NewWebAuthnDeviceFromCredential rpid username description now c).AAGUID = none) ∧
    (d.AAGUID = some s → uuidParse s = some u → uuidID u = 0 →
      d.ToDevice = some dev → dev.AAGUID = none) ∧
    (d.AAGUID = some s → uuidParse s = some u → uuidID u = 0 →
      WebAuthnDevice.UnmarshalYAMLData zeroWebAuthnDevice d = some devy →
      devy.AAGUID = none) ∧
    (uuidID u = 0 ↔
      u.getD 0 0 = 0 ∧ u.getD 1 0 = 0 ∧ u.getD 2 0 = 0 ∧ u.getD 3 0 = 0) := by
  refine ⟨fun hp h0 => ?_, fun ha hp h0 hdev => ?_, fun ha hp h0 hdev => ?_, ?_⟩
  · simp only [NewWebAuthnDeviceFromCredential, hp]
    simp [h0]
  · have hpa : parseAAGUIDField d.AAGUID = some none := by
      rw [ha]
      simp [parseAAGUIDField, hp, h0]
    unfold WebAuthnDeviceData.ToDevice at hdev
    rcases hpk : b64DecodeCore d.PublicKey with _ | pk
    · rw [hpk] at hdev
      exact Option.noConfusion hdev
    · rw [hpk, hpa] at hdev
      rcases hk : b64DecodeCore d.KID with _ | kid
      · rw [hk] at hdev
        exact Option.noConfusion hdev
      · rw [hk] at hdev
        injection hdev with h2
        subst h2
        rfl
  · have hpa : parseAAGUIDYAML zeroWebAuthnDevice.AAGUID d.AAGUID = some none := by
      rw [ha]
      simp [parseAAGUIDYAML, hp, h0, zeroWebAuthnDevice]
    unfold WebAuthnDevice.UnmarshalYAMLData at hdev
    rcases hpk : b64DecodeCore d.PublicKey with _ | pk
    · rw [hpk] at hdev
      exact Option.noConfusion hdev
    · rw [hpk, hpa] at hdev
      rcases hk : b64DecodeCore d.KID with _ | kid
      · rw [hk] at hdev
        exact Option.noConfusion hdev
      · rw [hk] at hdev
        injection hdev with h2
        subst h2
        rfl
  · unfold uuidID
    omega

/-- Claim C10, witnessed at the UUID whose first 32 bits are zero and whose
last byte is 1, through all three operations. -/
theorem c10_zero_check_witness :
    uuidParse (hexEncode c10Cred.Authenticator.AAGUID) = some c10UUID ∧
    uuidID c10UUID = 0 ∧
    c10UUID.getD 15 0 = 1 ∧
    c10Data.AAGUID = some (uuidString c10UUID) ∧
    uuidParse (uuidString c10UUID) = some c10UUID ∧
    c10Data.ToDevice = some devRoundtrip ∧
    WebAuthnDevice.UnmarshalYAMLData zeroWebAuthnDevice c10Data = some devRoundtrip ∧
    (NewWebAuthnDeviceFromCredential "rp" "u" "d" 0 c10Cred).AAGUID = none ∧
    devRoundtrip.AAGUID = none ∧
    (uuidID c10UUID = 0 ↔
      c10UUID.getD 0 0 = 0 ∧ c10UUID.getD 1 0 = 0 ∧
      c10UUID.getD 2 0 = 0 ∧ c10UUID.getD 3 0 = 0) := by
  refine ⟨by decide, by decide, by decide, rfl, by decide, by decide, by decide, ?_, ?_, ?_⟩
  · exact (c10_zero_check_reads_first_32_bits "rp" "u" "d" 0 c10Cred c10Data
      (uuidString c10UUID) c10UUID devRoundtrip devRoundtrip).1 (by decide) (by decide)
  · exact (c10_zero_check_reads_first_32_bits "rp" "u" "d" 0 c10Cred c10Data
      (uuidString c10UUID) c10UUID devRoundtrip devRoundtrip).2.1 rfl (by decide)
      (by decide) (by decide)
  · exact (c10_zero_check_reads_first_32_bits "rp" "u" "d" 0 c10Cred c10Data
      (uuidString c10UUID) c10UUID devRoundtrip devRoundtrip).2.2.2

/-- Claim C8: for every transport list with no empty and no comma-containing
tags, decoding the comma-joined encoding yields the list again; decoding the
empty string yields the empty list, not a list of one empty string; and
encoding the empty list yields the empty string. -/
theorem c8_transport_codec_roundtrip (T : List (List Char))
    (h : ∀ g ∈ T, g ≠ [] ∧ ',' ∉ g) :
    decodeTransports (joinComma T) = T ∧
    decodeTransports [] = [] ∧
    joinComma ([] : List (List Char)) = [] :=
  ⟨decode_encode_aux T h, rfl, rfl⟩

/-- Claim C8, witnessed at the two-tag transport list of `c1DeviceGood`. -/
theorem c8_transport_codec_roundtrip_witness :
    (∀ g ∈ ["usb".toList, "nfc".toList], g ≠ [] ∧ ',' ∉ g) ∧
    decodeTransports (joinComma ["usb".toList, "nfc".toList]) =
      ["usb".toList, "nfc".toList] ∧
    decodeTransports [] = [] ∧
    joinComma ([] : List (List Char)) = [] :=
  ⟨by decide, (c8_transport_codec_roundtrip ["usb".toList, "nfc".toList] (by decide)).1,
    rfl, rfl⟩

end WebAuthnModel
